import Mathlib

/-
Shallow embedding of src/python/S3_OBJECT_LOCK_ENABLED/S3_OBJECT_LOCK_ENABLED.py
(AWS Config rule checking that S3 buckets have Object Lock enabled).

Modelling conventions:
  * Python exceptions are modelled by `Except PyErr`.  The blanket
    `except:` around the S3 fetch is modelled by the bucket's `fetch`
    field already being an `Except`; every other exception site
    (KeyError from `d['k']`, AttributeError from `None.get`, TypeError
    from `int(None)`, NameError from reading an unbound local) is
    translated at the exact program point where CPython would raise it.
  * Python dicts with a fixed key set are modelled as structures with
    `Option` fields (`none` = key absent).
  * The loop-local variable `response` of `evaluate_periodic` is
    function-scoped in Python and survives from one loop iteration to
    the next; it is modelled as explicit `Option S3Response` state
    threaded through the bucket loop, `none` meaning "not yet bound".
-/

namespace S3ObjectLock

/-- Python errors that the embedded code can raise. -/
inductive PyErr where
  | invalidParameters (msg : String)
  | valueError
  | typeError
  | keyError (k : String)
  | attributeError
  | nameError
deriving DecidableEq, Repr

/-- Python values that can appear as rule-parameter values. -/
inductive PyVal where
  | pInt (n : Int)
  | pStr (s : String)
  | pNone
deriving DecidableEq, Repr

/-- Strip leading and trailing whitespace from a character list. -/
def trimChars (cs : List Char) : List Char :=
  ((cs.dropWhile Char.isWhitespace).reverse.dropWhile Char.isWhitespace).reverse

/-- Decimal value of a digit list. -/
def digitsVal (ds : List Char) : Nat :=
  ds.foldl (fun a c => a * 10 + (c.toNat - 48)) 0

/-- Semantics of Python `int(s)` on a string: optional surrounding
whitespace, optional sign, then decimal digits; `none` models the
ValueError raised on any other shape. -/
def pyIntOfString (s : String) : Option Int :=
  let cs := trimChars s.data
  let signed : Bool × List Char :=
    match cs with
    | '-' :: rest => (true, rest)
    | '+' :: rest => (false, rest)
    | _ => (false, cs)
  if signed.2 ≠ [] ∧ signed.2.all Char.isDigit then
    some (if signed.1 then -(digitsVal signed.2 : Int) else (digitsVal signed.2 : Int))
  else
    none

/-- Semantics of Python `int(v)`: ints pass through, strings are parsed
(ValueError on failure), `None` raises TypeError. -/
def pyInt : PyVal → Except PyErr Int
  | .pInt n => .ok n
  | .pStr s =>
    match pyIntOfString s with
    | some n => .ok n
    | none => .error .valueError
  | .pNone => .error .typeError

/-- The raw rule-parameter mapping: keys Mode / Days / Years, each
optionally present with an arbitrary Python value. -/
structure RawParams where
  mode : Option PyVal
  days : Option PyVal
  years : Option PyVal
deriving DecidableEq, Repr

def modeParamMsg : String :=
  "The Config Rule must have the parameter \"Mode\" with values either \"GOVERNANCE\" or \"COMPLIANCE\""

def daysIntMsg : String := "The parameter \"Days\" must be a integer"

def daysPosMsg : String := "The parameter \"Days\" must be greater than 0"

def yearsIntMsg : String := "The parameter \"Years\" must be a integer"

def yearsPosMsg : String := "The parameter \"Years\" must be greater than 0"

/-- The `'Years' in rule_parameters` block of `evaluate_parameters`
(source lines 147-154): coerce with `int()`, catching only ValueError,
then reject coerced values below 1. -/
def checkYears (p : RawParams) : Except PyErr RawParams :=
  match p.years with
  | none => .ok p
  | some v =>
    match pyInt v with
    | .error .valueError => .error (.invalidParameters yearsIntMsg)
    | .error e => .error e
    | .ok n =>
      if n < 1 then .error (.invalidParameters yearsPosMsg)
      else .ok { mode := p.mode, days := p.days, years := some (.pInt n) }

/-- `S3_OBJECT_LOCK_ENABLED.evaluate_parameters` (source lines 129-156):
require Mode; if Days is present coerce it with `int()` (only ValueError
is turned into InvalidParametersError) and require the result >= 1;
then the same for Years. -/
def evaluate_parameters (p : RawParams) : Except PyErr RawParams :=
  match p.mode with
  | none => .error (.invalidParameters modeParamMsg)
  | some _ =>
    match p.days with
    | none => checkYears p
    | some v =>
      match pyInt v with
      | .error .valueError => .error (.invalidParameters daysIntMsg)
      | .error e => .error e
      | .ok n =>
        if n < 1 then .error (.invalidParameters daysPosMsg)
        else checkYears { mode := p.mode, days := some (.pInt n), years := p.years }

/-- The `DefaultRetention` dict of a get_object_lock_configuration
response. -/
structure DefaultRetention where
  mode : Option String
  days : Option Int
  years : Option Int
deriving DecidableEq, Repr

/-- The `Rule` dict of an ObjectLockConfiguration. -/
structure LockRule where
  defaultRetention : Option DefaultRetention
deriving DecidableEq, Repr

/-- The `ObjectLockConfiguration` dict. -/
structure LockConfig where
  rule : Option LockRule
deriving DecidableEq, Repr

/-- A get_object_lock_configuration response: the
ObjectLockConfiguration key may be absent. -/
structure S3Response where
  objectLockConfiguration : Option LockConfig
deriving DecidableEq, Repr

inductive ComplianceType where
  | COMPLIANT
  | NON_COMPLIANT
  | NOT_APPLICABLE
deriving DecidableEq, Repr

/-- rdklib Evaluation object as constructed by this rule; `ann` models
the annotation argument. -/
structure Evaluation where
  complianceType : ComplianceType
  resourceId : Option String
  resourceType : Option String
  ann : Option String
deriving DecidableEq, Repr

def RESOURCE_TYPE : String := "AWS::S3::Bucket"

/-- An element of the `evaluations` Python list.  Normally an Evaluation
object, but source line 126 appends a *list* of evaluations, so the list
is heterogeneous. -/
inductive EvalItem where
  | single (e : Evaluation)
  | nested (es : List Evaluation)
deriving DecidableEq, Repr

def noLockMsg : String := "No ObjectLockConfiguration exist for this bucket."

def noMatchMsg : String := "ObjectLockConfiguration doesn't match."

/-- Evaluation appended at source line 96. -/
def noLockEval (name : String) : Evaluation :=
  { complianceType := .NON_COMPLIANT, resourceId := some name,
    resourceType := some RESOURCE_TYPE, ann := some noLockMsg }

/-- Evaluation appended at source line 120. -/
def compliantEval (name : String) : Evaluation :=
  { complianceType := .COMPLIANT, resourceId := some name,
    resourceType := some RESOURCE_TYPE, ann := none }

/-- Evaluation appended at source line 122. -/
def noMatchEval (name : String) : Evaluation :=
  { complianceType := .NON_COMPLIANT, resourceId := some name,
    resourceType := some RESOURCE_TYPE, ann := some noMatchMsg }

/-- Evaluation constructed at source line 126: only the compliance type
is passed. -/
def notApplicableEval : Evaluation :=
  { complianceType := .NOT_APPLICABLE, resourceId := none,
    resourceType := none, ann := none }

/-- Source lines 98-111: derive (mode, days, years) from an
ObjectLockConfiguration dict.
  * line 102 `cfg.get('Rule', 0) != 0` guards the mode derivation only;
  * when Rule is absent, line 106 evaluates `cfg.get('Rule')`, getting
    None, and then calls `.get('DefaultRetention')` on it: CPython
    raises AttributeError;
  * when Rule is present but DefaultRetention absent, line 103
    `cfg['Rule']['DefaultRetention']` raises KeyError;
  * otherwise Days/Years are taken only when present and > 0, else 0,
    and Mode defaults to None. -/
def extractLockState (cfg : LockConfig) : Except PyErr (Option String × Int × Int) :=
  match cfg.rule with
  | none => .error .attributeError
  | some r =>
    match r.defaultRetention with
    | none => .error (.keyError "DefaultRetention")
    | some dr =>
      let days : Int := if dr.days.getD 0 > 0 then dr.days.getD 0 else 0
      let years : Int := if dr.years.getD 0 > 0 then dr.years.getD 0 else 0
      .ok (dr.mode, days, years)

/-- `valid_rule_parameters.get(k, 0)` at source lines 113-114, followed
by the arithmetic on the value: after validation the value is an int;
any other value would make the arithmetic raise. -/
def pyGetIntD (v : Option PyVal) (d : Int) : Except PyErr Int :=
  match v with
  | none => .ok d
  | some (.pInt n) => .ok n
  | some _ => .error .typeError

/-- Python `==` between the derived mode (None or a string) and
`valid_rule_parameters.get('Mode')` (absent key gives None). -/
def pyEqModeParam (mode : Option String) (v : Option PyVal) : Bool :=
  match mode, v with
  | none, none => true
  | none, some .pNone => true
  | some s, some (.pStr t) => s == t
  | _, _ => false

/-- One enumerated bucket together with the outcome of
`s3_client.get_object_lock_configuration(Bucket=name)`: `.error ()`
models the call raising (any exception, caught by the bare `except:`). -/
structure Bucket where
  name : String
  fetch : Except Unit S3Response
deriving Repr

/-- The value of the `response` local after the try/except of source
lines 91-94: rebound on a successful fetch, untouched (possibly still
unbound) when the fetch raised. -/
def fetchState (st : Option S3Response) (b : Bucket) : Option S3Response :=
  match b.fetch with
  | .ok r => some r
  | .error _ => st

/-- The `isexception` flag of source lines 90-94. -/
def isException (b : Bucket) : Bool :=
  match b.fetch with
  | .ok _ => false
  | .error _ => true

/-- `'ObjectLockConfiguration' not in response` where reading `response`
while it is unbound raises NameError. -/
def memberTest : Option S3Response → Except PyErr Bool
  | none => .error .nameError
  | some r => .ok r.objectLockConfiguration.isNone

/-- Python short-circuiting `or`: the right operand is evaluated (and
may raise) only when the left one is falsy. -/
def pyOr (a : Bool) (b : Except PyErr Bool) : Except PyErr Bool :=
  if a then .ok true else b

/-- One iteration of the bucket loop of `evaluate_periodic` (source
lines 88-122), with the `response` local threaded as explicit state. -/
def evalBucketStep (p : RawParams) (st : Option S3Response) (b : Bucket) :
    Except PyErr (Evaluation × Option S3Response) := do
  let st2 := fetchState st b
  let cond ← pyOr (isException b) (memberTest st2)
  if cond then
    pure (noLockEval b.name, st2)
  else
    match st2 with
    | none => .error .nameError
    | some r =>
      match r.objectLockConfiguration with
      | none => .error .attributeError
      | some cfg => do
        let ext ← extractLockState cfg
        let dp ← pyGetIntD p.days 0
        let yp ← pyGetIntD p.years 0
        let days_in_param : Int := yp * 365 + dp
        let totaldays : Int := ext.2.2 * 365 + ext.2.1
        if pyEqModeParam ext.1 p.mode = true ∧ days_in_param ≤ totaldays then
          pure (compliantEval b.name, st2)
        else
          pure (noMatchEval b.name, st2)

/-- The whole bucket loop: evaluates buckets in order, threading the
`response` local, collecting one list element per bucket. -/
def evalBuckets (p : RawParams) (st : Option S3Response) :
    List Bucket → Except PyErr (List EvalItem)
  | [] => .ok []
  | b :: bs => do
    let r ← evalBucketStep p st b
    let rest ← evalBuckets p r.2 bs
    pure (.single r.1 :: rest)

/-- `S3_OBJECT_LOCK_ENABLED.evaluate_periodic` (source lines 82-127):
validate parameters, run the bucket loop from an unbound `response`
local, and if no evaluations were collected append the single-element
*list* `[Evaluation(NOT_APPLICABLE)]` (source line 126). -/
def evaluate_periodic (p : RawParams) (buckets : List Bucket) :
    Except PyErr (List EvalItem) := do
  let vp ← evaluate_parameters p
  let evs ← evalBuckets vp none buckets
  if evs.isEmpty then
    pure [.nested [notApplicableEval]]
  else
    pure evs

/-- One record of a select_resource_config Results entry, after
`json.loads(result)['resourceName']`. -/
structure BucketRecord where
  resourceName : String
deriving DecidableEq, Repr

/-- One response of `config_client.select_resource_config`. -/
structure QueryPage where
  results : List BucketRecord
  nextToken : Option String
deriving DecidableEq, Repr

def pageNames (pg : QueryPage) : List String :=
  pg.results.map BucketRecord.resourceName

/-- The while-loop of `get_buckets` (source lines 163-170): yield the
current page's names; if the response carries a NextToken, set
`next_token` to it and re-issue the query (modelled by consuming the
next response in the list), otherwise exit.  The `while next_token:`
condition then tests the *truthiness* of the stored token string: when
the token is the empty string the freshly fetched response is dropped
without its results ever being yielded.  `none` means the collaborator
ran out of responses while a call was still being made. -/
def getBucketsLoop : QueryPage → List QueryPage → Option (List String)
  | pg, rest =>
    match pg.nextToken, rest with
    | none, _ => some (pageNames pg)
    | some _, [] => none
    | some tok, q :: qs =>
      if tok.isEmpty then
        some (pageNames pg)
      else
        (getBucketsLoop q qs).map (fun tail => pageNames pg ++ tail)

/-- `get_buckets` (source lines 159-170): issue the query once, then
loop.  The argument is the sequence of responses the collaborator
returns for the successive calls. -/
def get_buckets : List QueryPage → Option (List String)
  | [] => none
  | pg :: rest => getBucketsLoop pg rest

/-- Whether an `evaluate_parameters` outcome is the InvalidParametersError
the rdklib framework turns into a ParameterError. -/
def isInvalidParameters : Except PyErr RawParams → Bool
  | .error (.invalidParameters _) => true
  | _ => false

/-- A bucket whose fetch raised, or whose response has no
ObjectLockConfiguration key: the condition of source line 95. -/
def badFetch (b : Bucket) : Prop :=
  b.fetch = .error () ∨ ∃ r, b.fetch = .ok r ∧ r.objectLockConfiguration = none

/-- The Days parameter, when present, coerces via `int()` to a value
of at least 1 (i.e. the Days checks of `evaluate_parameters` pass). -/
def daysParamOk (p : RawParams) : Prop :=
  p.days = none ∨ ∃ n w, p.days = some w ∧ pyInt w = .ok n ∧ 1 ≤ n

/-- Concrete inputs used to instantiate the theorems below. -/
def govParams : RawParams :=
  { mode := some (.pStr "GOVERNANCE"), days := none, years := none }

def emptyParams : RawParams := { mode := none, days := none, years := none }

def drGov : DefaultRetention :=
  { mode := some "GOVERNANCE", days := none, years := none }

def cfgGov : LockConfig := { rule := some { defaultRetention := some drGov } }

def respGov : S3Response := { objectLockConfiguration := some cfgGov }

def bucketGov : Bucket := { name := "test-s3", fetch := .ok respGov }

def cfgNoRule : LockConfig := { rule := none }

def respNoRule : S3Response := { objectLockConfiguration := some cfgNoRule }

def bucketNoRule : Bucket := { name := "test-s3", fetch := .ok respNoRule }

def bucketFetchFail : Bucket := { name := "bad-bucket", fetch := .error () }

def pageA : QueryPage :=
  { results := [{ resourceName := "alpha" }, { resourceName := "beta" }],
    nextToken := some "tok-1" }

def pageB : QueryPage :=
  { results := [{ resourceName := "gamma" }], nextToken := none }

/-- Whether a page's NextToken is present and truthy in Python's sense
(a non-empty string), i.e. whether `while next_token:` keeps looping
after it is stored. -/
def hasTruthyToken (pg : QueryPage) : Bool :=
  match pg.nextToken with
  | some t => !t.isEmpty
  | none => false

/-- A page carrying a present-but-empty continuation token. -/
def pgEmptyTok : QueryPage :=
  { results := [{ resourceName := "alpha" }, { resourceName := "beta" }],
    nextToken := some "" }

/-- Whether a per-bucket evaluation step produced a verdict at all. -/
def stepProducedVerdict : Except PyErr (Evaluation × Option S3Response) → Bool
  | .ok _ => true
  | .error _ => false

def pBadDays : RawParams :=
  { mode := some (.pStr "GOVERNANCE"), days := some (.pStr "abc"), years := none }

def pNoneDays : RawParams :=
  { mode := some (.pStr "GOVERNANCE"), days := some .pNone, years := none }

/-- Helper: a bucket whose fetch raised or whose response lacks the
ObjectLockConfiguration key gets the "No ObjectLockConfiguration"
NON_COMPLIANT evaluation and the loop state is threaded unchanged. -/
theorem evalBucketStep_of_badFetch (p : RawParams) (st : Option S3Response) (b : Bucket)
    (h : badFetch b) :
    evalBucketStep p st b = .ok (noLockEval b.name, fetchState st b) := by
  obtain ⟨nm, f⟩ := b
  rcases h with h | ⟨r, hr, hc⟩
  · replace h : f = Except.error () := h
    subst h
    rfl
  · obtain ⟨olc⟩ := r
    replace hr : f = Except.ok ⟨olc⟩ := hr
    replace hc : olc = none := hc
    subst hr
    subst hc
    rfl

end S3ObjectLock

namespace S3ObjectLock

/-- Claim C5: for every parameter mapping with no Mode key,
`evaluate_parameters` fails with an InvalidParametersError. -/
theorem evaluate_parameters_requires_mode (p : RawParams) (h : p.mode = none) :
    evaluate_parameters p = .error (.invalidParameters modeParamMsg) := by
  obtain ⟨mo, da, yr⟩ := p
  replace h : mo = none := h
  subst h
  rfl

/-- Witness for C5 at the all-absent parameter mapping. -/
theorem evaluate_parameters_requires_mode_witness :
    emptyParams.mode = none ∧
    evaluate_parameters emptyParams = .error (.invalidParameters modeParamMsg) :=
  ⟨rfl, evaluate_parameters_requires_mode emptyParams rfl⟩

/-- Claim C7: when parameter validation fails, the error propagates out
of `evaluate_periodic` unchanged, whatever the bucket enumeration would
have yielded: no bucket is fetched or evaluated and no partial result is
produced. -/
theorem evaluate_periodic_aborts_on_param_error (p : RawParams) (e : PyErr)
    (bs : List Bucket) (h : evaluate_parameters p = .error e) :
    evaluate_periodic p bs = .error e := by
  unfold evaluate_periodic
  rw [h]
  rfl

/-- Witness for C7: a mapping without Mode aborts the run even though a
bucket was enumerated. -/
theorem evaluate_periodic_aborts_on_param_error_witness :
    evaluate_parameters emptyParams = .error (.invalidParameters modeParamMsg) ∧
    evaluate_periodic emptyParams [bucketGov] = .error (.invalidParameters modeParamMsg) :=
  ⟨rfl, evaluate_periodic_aborts_on_param_error emptyParams _ [bucketGov] rfl⟩

/-- Claim C2 (code bug): on an empty bucket enumeration the code appends
the *list* `[Evaluation(NOT_APPLICABLE)]` to `evaluations` (source line
126), so the single returned element is a nested one-element list, not
the NOT_APPLICABLE evaluation itself. -/
theorem evaluate_periodic_no_buckets_nested_list :
    evaluate_periodic govParams [] = .ok [EvalItem.nested [notApplicableEval]] := rfl

/-- Claim C3 (code bug): extraction is not total.  With
ObjectLockConfiguration present but Rule absent, line 106 calls `.get`
on None and raises AttributeError; with Rule present but
DefaultRetention absent, line 103 raises KeyError. -/
theorem extractLockState_raises_on_missing_rule :
    extractLockState cfgNoRule = .error .attributeError ∧
    extractLockState { rule := some { defaultRetention := none } } =
      .error (.keyError "DefaultRetention") :=
  ⟨rfl, rfl⟩

/-- Claim C9: the verdict of one bucket-loop iteration does not depend
on the loop state left behind by earlier iterations (the stale
`response` binding): evaluating the same bucket with the same
parameters always yields the same verdict. -/
theorem evalBucketStep_history_independent (p : RawParams)
    (st1 st2 : Option S3Response) (b : Bucket) :
    (evalBucketStep p st1 b).map Prod.fst = (evalBucketStep p st2 b).map Prod.fst := by
  obtain ⟨nm, f⟩ := b
  cases f with
  | error u => rfl
  | ok r => rfl

/-- Claim C10: when the very first bucket's fetch raises, the unbound
`response` local is never read — the `isexception` flag short-circuits
the membership test — so the bucket still gets its NON_COMPLIANT verdict
and the remaining buckets are evaluated from the same unbound state. -/
theorem evalBuckets_first_bucket_fetch_failure (p : RawParams) (nm : String)
    (bs : List Bucket) :
    evalBuckets p none ({ name := nm, fetch := Except.error () } :: bs) =
      (evalBuckets p none bs).map (fun es => EvalItem.single (noLockEval nm) :: es) := by
  have hstep : evalBucketStep p none { name := nm, fetch := Except.error () } =
      .ok (noLockEval nm, none) := rfl
  cases htail : evalBuckets p none bs <;>
    simp [evalBuckets, hstep, htail, Except.map, Bind.bind, Except.bind, Pure.pure, Except.pure]

/-- Claim C6: a bucket whose fetch raised, or whose response lacks
ObjectLockConfiguration, is classified NON_COMPLIANT with the
"No ObjectLockConfiguration exist for this bucket." annotation, and the
remaining buckets of the enumeration are still evaluated. -/
theorem evalBuckets_continue_after_badFetch (p : RawParams) (st : Option S3Response)
    (b : Bucket) (bs : List Bucket) (h : badFetch b) :
    evalBuckets p st (b :: bs) =
      (evalBuckets p (fetchState st b) bs).map
        (fun es => EvalItem.single (noLockEval b.name) :: es) := by
  have hstep := evalBucketStep_of_badFetch p st b h
  cases htail : evalBuckets p (fetchState st b) bs <;>
    simp [evalBuckets, hstep, htail, Except.map, Bind.bind, Except.bind, Pure.pure, Except.pure]

/-- Witness for C6: a failing fetch followed by a healthy bucket. -/
theorem evalBuckets_continue_after_badFetch_witness :
    bucketFetchFail.fetch = Except.error () ∧
    evalBuckets govParams none (bucketFetchFail :: [bucketGov]) =
      (evalBuckets govParams (fetchState none bucketFetchFail) [bucketGov]).map
        (fun es => EvalItem.single (noLockEval bucketFetchFail.name) :: es) :=
  ⟨rfl, evalBuckets_continue_after_badFetch govParams none bucketFetchFail [bucketGov]
    (Or.inl rfl)⟩

/-- Counterexample to C1 as stated: at a response that *does* contain an
ObjectLockConfiguration (with no Rule inside), the code produces no
verdict at all — the iteration raises AttributeError — although the
claim requires a COMPLIANT or NON_COMPLIANT verdict for every such
bucket. -/
theorem evalBucketStep_noRule_counterexample :
    evalBucketStep govParams none bucketNoRule = .error .attributeError ∧
    stepProducedVerdict (evalBucketStep govParams none bucketNoRule) = false :=
  ⟨rfl, rfl⟩

/-- Claim C1 (amended): for a bucket whose fetch succeeds, whose
response contains an ObjectLockConfiguration and whose field extraction
succeeds, the verdict is COMPLIANT exactly when the extracted mode
equals the Mode parameter and years*365+days is at least
Years*365+Days of the parameters (each defaulting to 0), and otherwise
NON_COMPLIANT with the "ObjectLockConfiguration doesn't match."
annotation. -/
theorem evalBucketStep_verdict (p : RawParams) (stA : Option S3Response) (b : Bucket)
    (r : S3Response) (cfg : LockConfig) (m : Option String) (d y dp yp : Int)
    (hf : b.fetch = Except.ok r)
    (hc : r.objectLockConfiguration = some cfg)
    (he : extractLockState cfg = .ok (m, d, y))
    (hd : pyGetIntD p.days 0 = .ok dp)
    (hy : pyGetIntD p.years 0 = .ok yp) :
    evalBucketStep p stA b =
      .ok (if pyEqModeParam m p.mode = true ∧ yp * 365 + dp ≤ y * 365 + d then
             compliantEval b.name
           else
             noMatchEval b.name,
           some r) := by
  obtain ⟨nm, f⟩ := b
  replace hf : f = Except.ok r := hf
  subst hf
  obtain ⟨olc⟩ := r
  replace hc : olc = some cfg := hc
  subst hc
  simp only [evalBucketStep, fetchState, isException, pyOr, memberTest, Option.isNone,
    Bind.bind, Except.bind, Pure.pure, Except.pure, Bucket.name]
  rw [he, hd, hy]
  by_cases hcond : pyEqModeParam m p.mode = true ∧ yp * 365 + dp ≤ y * 365 + d <;>
    simp [hcond]

/-- Witness for C1 (amended) at a COMPLIANT input. -/
theorem evalBucketStep_verdict_witness :
    bucketGov.fetch = Except.ok respGov ∧
    respGov.objectLockConfiguration = some cfgGov ∧
    extractLockState cfgGov = .ok (some "GOVERNANCE", 0, 0) ∧
    pyGetIntD govParams.days 0 = .ok 0 ∧
    pyGetIntD govParams.years 0 = .ok 0 ∧
    evalBucketStep govParams none bucketGov = .ok (compliantEval "test-s3", some respGov) :=
  ⟨rfl, rfl, rfl, rfl, rfl, by
    have h := evalBucketStep_verdict govParams none bucketGov respGov cfgGov
      (some "GOVERNANCE") 0 0 0 0 rfl rfl rfl rfl rfl
    simpa [govParams, pyEqModeParam, bucketGov] using h⟩

/-- Counterexample to C4 as stated: a Days value of None is not
coercible to an integer, yet `evaluate_parameters` raises a TypeError
(uncaught by the `except ValueError` clause), not an
InvalidParametersError. -/
theorem evaluate_parameters_typeerror_counterexample :
    evaluate_parameters pNoneDays = .error .typeError ∧
    isInvalidParameters (evaluate_parameters pNoneDays) = false :=
  ⟨rfl, rfl⟩

/-- Claim C4 (amended): when Days or Years is present with a value on
which `int()` raises ValueError, or coerces to an integer below 1,
`evaluate_parameters` fails with an InvalidParametersError (values on
which `int()` raises TypeError instead propagate that TypeError). -/
theorem evaluate_parameters_rejects_bad_numeric (p : RawParams) (v : PyVal)
    (hm : p.mode.isSome = true)
    (hpos : p.days = some v ∨ (daysParamOk p ∧ p.years = some v))
    (hv : pyInt v = .error .valueError ∨ ∃ n, pyInt v = .ok n ∧ n < 1) :
    isInvalidParameters (evaluate_parameters p) = true := by
  obtain ⟨mo, da, yr⟩ := p
  obtain ⟨mv, hmv⟩ := Option.isSome_iff_exists.mp hm
  replace hmv : mo = some mv := hmv
  subst hmv
  rcases hpos with hda | ⟨hok, hyr⟩
  · replace hda : da = some v := hda
    subst hda
    rcases hv with hv | ⟨n, hok2, hlt⟩
    · simp [evaluate_parameters, hv, isInvalidParameters]
    · simp [evaluate_parameters, hok2, hlt, isInvalidParameters]
  · replace hyr : yr = some v := hyr
    subst hyr
    rcases hok with hda | ⟨k, w, hdw, hkw, hk1⟩
    · replace hda : da = none := hda
      subst hda
      rcases hv with hv | ⟨n, hok2, hlt⟩
      · simp [evaluate_parameters, checkYears, hv, isInvalidParameters]
      · simp [evaluate_parameters, checkYears, hok2, hlt, isInvalidParameters]
    · replace hdw : da = some w := hdw
      subst hdw
      have hnot : ¬ (k < 1) := not_lt.mpr hk1
      rcases hv with hv | ⟨n, hok2, hlt⟩
      · simp [evaluate_parameters, checkYears, hkw, hnot, hv, isInvalidParameters]
      · simp [evaluate_parameters, checkYears, hkw, hnot, hok2, hlt, isInvalidParameters]

/-- Witness for C4 (amended): Days = "abc" makes int() raise ValueError
and validation fail with InvalidParametersError. -/
theorem evaluate_parameters_rejects_bad_numeric_witness :
    pBadDays.mode.isSome = true ∧
    pBadDays.days = some (.pStr "abc") ∧
    pyInt (.pStr "abc") = .error .valueError ∧
    isInvalidParameters (evaluate_parameters pBadDays) = true :=
  ⟨rfl, rfl, rfl,
    evaluate_parameters_rejects_bad_numeric pBadDays (.pStr "abc") rfl (Or.inl rfl)
      (Or.inl rfl)⟩

/-- Counterexample to C8 as stated: a page whose NextToken is present
but empty.  The premise of the claim holds (the collaborator's next
response has no continuation token), yet `get_buckets` re-issues the
query, then the `while next_token:` truthiness test fails and the
freshly fetched page's results ("gamma") are never yielded. -/
theorem get_buckets_empty_token_counterexample :
    get_buckets [pgEmptyTok, pageB] = some ["alpha", "beta"] ∧
    get_buckets [pgEmptyTok, pageB] ≠ some (([pgEmptyTok] ++ [pageB]).flatMap pageNames) :=
  ⟨rfl, by decide⟩

/-- Claim C8 (amended): whenever every continuation token the
collaborator returns before the final page is truthy (a non-empty
string) and the final page carries no token, `get_buckets` terminates
and yields every result of every page exactly once, in collaborator
order.  (A present-but-empty token instead re-issues the query once
more but terminates without yielding that last response's results.) -/
theorem get_buckets_yields_all_pages (front : List QueryPage) (lastPg : QueryPage)
    (rest : List QueryPage)
    (hf : ∀ pg ∈ front, hasTruthyToken pg = true)
    (hl : lastPg.nextToken = none) :
    get_buckets (front ++ lastPg :: rest) = some ((front ++ [lastPg]).flatMap pageNames) := by
  revert hf
  induction front with
  | nil =>
    intro _
    simp [get_buckets, getBucketsLoop, hl]
  | cons pg ps ih =>
    intro hf
    have hpg := hf pg (List.mem_cons_self pg ps)
    have hps : ∀ q ∈ ps, hasTruthyToken q = true :=
      fun q hq => hf q (List.mem_cons_of_mem pg hq)
    have hih := ih hps
    cases htok : pg.nextToken with
    | none => simp [hasTruthyToken, htok] at hpg
    | some tok =>
      have hemp : tok.isEmpty = false := by
        rw [hasTruthyToken, htok] at hpg
        simpa using hpg
      cases hcons : ps ++ lastPg :: rest with
      | nil => exact absurd hcons (by cases ps <;> simp)
      | cons q qs =>
        rw [hcons] at hih
        have hq : getBucketsLoop q qs = some ((ps ++ [lastPg]).flatMap pageNames) := hih
        have hsplit : (pg :: ps) ++ lastPg :: rest = pg :: q :: qs := by
          rw [← hcons]
          rfl
        rw [hsplit]
        simp [get_buckets, getBucketsLoop, htok, hemp, hq]

/-- Witness for C8 (amended): two pages, the first carrying a non-empty
continuation token. -/
theorem get_buckets_yields_all_pages_witness :
    hasTruthyToken pageA = true ∧
    pageB.nextToken = none ∧
    get_buckets [pageA, pageB] = some (([pageA] ++ [pageB]).flatMap pageNames) :=
  ⟨rfl, rfl, by
    have h := get_buckets_yields_all_pages [pageA] pageB []
      (by
        intro q hq
        rw [List.mem_singleton.mp hq]
        rfl) rfl
    simpa using h⟩

end S3ObjectLock
